import Mathlib

/-!
# Verification of the kfly_firmware flight-control core (control.c)

Shallow embedding of the arming state machine, the cascaded control
pipeline, the output mixer and the parameter accessors of `control.c`.
C `float` arithmetic is modelled by exact rational arithmetic (`ℚ`);
the C `uint16_t` tick counters are `Nat` with an explicit `% 65536`
at each increment.  The transcendental C library functions `atan2f`
and `asinf` (external to the repository) are passed in as function
parameters, so every theorem holds for the true functions in
particular.  Helpers that live in `control.h` (which is not part of
the available sources) are modelled from the specification and marked
as such in their doc comments.
-/

/-- 3-component float vector (`vector3f_t`). -/
structure vector3f_t where
  x : ℚ
  y : ℚ
  z : ℚ
deriving DecidableEq, Repr

/-- Quaternion (`quaternion_t`) with scalar part `q0`. -/
structure quaternion_t where
  q0 : ℚ
  q1 : ℚ
  q2 : ℚ
  q3 : ℚ
deriving DecidableEq, Repr

/-- RC input roles queried by the control core (`Input_Role_Selector`). -/
inductive Input_Role_Selector
  | ROLE_PITCH
  | ROLE_ROLL
  | ROLE_YAW
  | ROLE_THROTTLE
  | ROLE_AUX1
deriving DecidableEq, Repr

export Input_Role_Selector (ROLE_PITCH ROLE_ROLL ROLE_YAW ROLE_THROTTLE ROLE_AUX1)

/-- Snapshot of the RC input collaborator: the per-role normalized level
(`RCInputGetInputLevel`) and the link-active flag
(`bActiveRCInputConnection`). -/
structure RCInput_State where
  level : Input_Role_Selector → ℚ
  active_connection : Bool

/-- Arming gesture direction (`Arming_Stick_Direction`). -/
inductive Arming_Stick_Direction
  | STICK_NONE
  | STICK_PITCH_MIN
  | STICK_PITCH_MAX
  | STICK_ROLL_MIN
  | STICK_ROLL_MAX
  | STICK_YAW_MIN
  | STICK_YAW_MAX
deriving DecidableEq, Repr

export Arming_Stick_Direction (STICK_NONE STICK_PITCH_MIN STICK_PITCH_MAX
  STICK_ROLL_MIN STICK_ROLL_MAX STICK_YAW_MIN STICK_YAW_MAX)

/-- Stick-region classification result (`Arming_Stick_Region`). -/
inductive Arming_Stick_Region
  | STICK_ARM_REGION
  | STICK_DISARM_REGION
  | STICK_NO_REGION
deriving DecidableEq, Repr

export Arming_Stick_Region (STICK_ARM_REGION STICK_DISARM_REGION STICK_NO_REGION)

/-- Arming configuration (`Control_Arm_Settings`).  The two times are the
integer-second fields set in `ControlInit` and compared against the
integer tick counters. -/
structure Control_Arm_Settings where
  stick_threshold : ℚ
  armed_min_throttle : ℚ
  stick_direction : Arming_Stick_Direction
  arm_stick_time : Nat
  arm_zero_throttle_timeout : Nat
deriving DecidableEq, Repr

/-- State owned by the arming thread: the `controllers_armed` flag and the
three `uint16_t` tick counters local to `ThreadControlArming`. -/
structure Arming_State where
  controllers_armed : Bool
  arm_time : Nat
  disarm_time : Nat
  timeout_time : Nat
deriving DecidableEq, Repr

/-- `SticksInRegion` of control.c: classifies the current stick position
into arm / disarm / no region.  Throttle must be at or below
`stick_threshold`; the configured axis is then compared against
`1 - 2 * stick_threshold`. -/
def SticksInRegion (arm_settings : Control_Arm_Settings)
    (rc : RCInput_State) : Arming_Stick_Region :=
  if rc.level ROLE_THROTTLE ≤ arm_settings.stick_threshold then
    match
      (match arm_settings.stick_direction with
       | STICK_PITCH_MIN => some (ROLE_PITCH, true)
       | STICK_PITCH_MAX => some (ROLE_PITCH, false)
       | STICK_ROLL_MIN => some (ROLE_ROLL, true)
       | STICK_ROLL_MAX => some (ROLE_ROLL, false)
       | STICK_YAW_MIN => some (ROLE_YAW, true)
       | STICK_YAW_MAX => some (ROLE_YAW, false)
       | STICK_NONE => none) with
    | none => STICK_NO_REGION
    | some (sel, is_min) =>
      let threshold := 1 - 2 * arm_settings.stick_threshold
      let level := rc.level sel
      if is_min = true then
        if level ≤ -threshold then STICK_ARM_REGION
        else if level ≥ threshold then STICK_DISARM_REGION
        else STICK_NO_REGION
      else
        if level ≥ threshold then STICK_ARM_REGION
        else if level ≤ -threshold then STICK_DISARM_REGION
        else STICK_NO_REGION
  else STICK_NO_REGION

/-- One iteration of the `ThreadControlArming` loop body of control.c,
parameterized by the tick rate `ARM_RATE` (a macro from a header that is
not part of the available sources; the spec gives 50 Hz as the example
rate).  The `uint16_t` counters wrap modulo 65536 on increment. -/
def ThreadControlArmingTick (ARM_RATE : Nat)
    (arm_settings : Control_Arm_Settings) (rc : RCInput_State)
    (s : Arming_State) : Arming_State :=
  if rc.active_connection = true ∧ arm_settings.stick_direction ≠ STICK_NONE then
    if rc.level ROLE_AUX1 < 1/2 then
      { controllers_armed := false, arm_time := 0, disarm_time := 0,
        timeout_time := 0 }
    else
      match SticksInRegion arm_settings rc with
      | STICK_ARM_REGION =>
        if s.arm_time / ARM_RATE > arm_settings.arm_stick_time then
          { s with controllers_armed := true }
        else
          { s with arm_time := (s.arm_time + 1) % 65536, disarm_time := 0,
                   timeout_time := 0 }
      | STICK_DISARM_REGION =>
        if s.disarm_time / ARM_RATE > arm_settings.arm_stick_time then
          { s with controllers_armed := false }
        else
          { s with disarm_time := (s.disarm_time + 1) % 65536, arm_time := 0,
                   timeout_time := 0 }
      | STICK_NO_REGION =>
        let s1 := { s with arm_time := 0, disarm_time := 0 }
        if arm_settings.arm_zero_throttle_timeout ≠ 0 then
          if rc.level ROLE_THROTTLE ≤ arm_settings.stick_threshold then
            if s1.timeout_time / ARM_RATE > arm_settings.arm_zero_throttle_timeout then
              { s1 with controllers_armed := false }
            else
              { s1 with timeout_time := (s1.timeout_time + 1) % 65536,
                        arm_time := 0, disarm_time := 0 }
          else { s1 with timeout_time := 0 }
        else s1
  else
    { s with controllers_armed := false }

/-- `vControlForceDisarm` of control.c: clears `controllers_armed` when the
key is the sentinel `0xdeadbeef`; otherwise nothing happens. -/
def vControlForceDisarm (key : Nat) (s : Arming_State) : Arming_State :=
  if key = 0xdeadbeef then { s with controllers_armed := false } else s

/-- Flight mode enumeration (`Flight_Mode`), with the source's spelling of
the direct-PWM constant.  `FLIGHTMODE_POSITION_HOLD` is commented out in
the source's dispatch and is omitted. -/
inductive Flight_Mode
  | FLIGHTMODE_DISARMED
  | FLIGTMODE_DIRECT_PWM
  | FLIGHTMODE_DIRECT_CONTROL
  | FLIGHTMODE_RATE
  | FLIGHTMODE_ATTITUDE
  | FLIGHTMODE_VELOCITY
  | FLIGHTMODE_POSITION
deriving DecidableEq, Repr

export Flight_Mode (FLIGHTMODE_DISARMED FLIGTMODE_DIRECT_PWM
  FLIGHTMODE_DIRECT_CONTROL FLIGHTMODE_RATE FLIGHTMODE_ATTITUDE
  FLIGHTMODE_VELOCITY FLIGHTMODE_POSITION)

/-- Modelled from the spec: one PI controller record (`PI_Data` of
control.h, which is not among the available sources).  Per the spec the
gains are {Kp, Ki, output_min, output_max} and the state is the integral
accumulator plus the last output; the first three floats {Kp, Ki,
output_min} are the ones copied by the parameter accessor pair. -/
structure PI_Data where
  Kp : ℚ
  Ki : ℚ
  output_min : ℚ
  output_max : ℚ
  integral : ℚ
  last_output : ℚ
deriving DecidableEq, Repr

/-- Modelled from the spec: `fPIUpdate` of control.h (not among the
available sources), per spec section 4.1: `raw = Kp*error + Ki*integral`;
the integral is updated by `error*dt` only when the raw output is not
saturating (clamp-then-freeze anti-windup); a non-positive `dt` is a
no-op holding the previous output.  Returns the output and the updated
controller record. -/
def fPIUpdate (pi : PI_Data) (error dt : ℚ) : ℚ × PI_Data :=
  if dt ≤ 0 then (pi.last_output, pi)
  else
    let raw := pi.Kp * error + pi.Ki * pi.integral
    if raw > pi.output_max then
      (pi.output_max, { pi with last_output := pi.output_max })
    else if raw < pi.output_min then
      (pi.output_min, { pi with last_output := pi.output_min })
    else
      (raw, { pi with integral := pi.integral + error * dt,
                      last_output := raw })

/-- Modelled from the spec: the clamp helper `bound(max, min, x)` of
control.h (not among the available sources); spec section 4.3 writes the
output stage as `bound(-1, 1, ...)`, i.e. x clamped into [min, max]. -/
def bound (mx mn x : ℚ) : ℚ :=
  if x > mx then mx else if x < mn then mn else x

/-- Pitch/roll limit pair used inside `Control_Limits`. -/
structure Angle_Limits where
  pitch : ℚ
  roll : ℚ
deriving DecidableEq, Repr

/-- Pitch/roll/yaw limit triple used inside `Control_Limits`. -/
structure Rate_Limits where
  pitch : ℚ
  roll : ℚ
  yaw : ℚ
deriving DecidableEq, Repr

/-- Control limits (`Control_Limits`): maximum commanded angle, rate and
attitude-loop output rate per axis. -/
structure Control_Limits where
  max_angle : Angle_Limits
  max_rate : Rate_Limits
  max_rate_attitude : Angle_Limits
deriving DecidableEq, Repr

/-- Output mixer (`Output_Mixer`): an 8-by-4 weight matrix mapping
{throttle, pitch, roll, yaw} demand to each physical channel. -/
structure Output_Mixer where
  weights : Fin 8 → Fin 4 → ℚ

/-- Actuator demand record (`actuator_desired` inside
`Control_Reference`). -/
structure Actuator_Desired where
  throttle : ℚ
  pitch : ℚ
  roll : ℚ
  yaw : ℚ
deriving DecidableEq, Repr

/-- Control reference structure (`Control_Reference`); the `target` field
of the source is configuration for the unimplemented targeting stage and
is not modelled. -/
structure Control_Reference where
  mode : Flight_Mode
  attitude_reference : vector3f_t
  rate_reference : vector3f_t
  actuator_desired : Actuator_Desired
  pwm_out : Fin 8 → ℚ

/-- PI controller bank (`Control_Data`): the attitude and rate controller
arrays indexed as in control.c (`attitude_controller[0..1]`,
`rate_controller[0..2]`). -/
structure Control_Data where
  attitude_controller : Fin 3 → PI_Data
  rate_controller : Fin 3 → PI_Data

/-- State mutated by one control cycle: the control reference, the PI
controller bank, and the three `static float` low-pass-filter registers
`t1, t2, t3` of `vRateControl` (kept here as `rate_lpf.x/y/z`). -/
structure Control_State where
  control_reference : Control_Reference
  control_data : Control_Data
  rate_lpf : vector3f_t

/-- The C library Euler-extraction functions used by `vAttitudeControl`;
they are external to the repository, so the pipeline is parameterized
over them. -/
structure EulerFns where
  atan2f : ℚ → ℚ → ℚ
  asinf : ℚ → ℚ

/-- `DEG2RAD` degree-to-radian factor (macro from a header not among the
available sources); its exact value is irrelevant to the claims, a fixed
rational stands in for the float constant. -/
def DEG2RAD : ℚ := 0.0174532925

/-- The hardcoded flight-mode selector of `vRCInputsToControlAction`:
`const Flight_Mode selector = FLIGHTMODE_ATTITUDE;`. -/
def flight_mode_selector : Flight_Mode := FLIGHTMODE_ATTITUDE

/-- `vRCInputsToControlAction` of control.c: builds the control reference
from RC levels.  When armed, the constant selector picks the attitude
branch, the yaw axis is always rate-referenced, and throttle is floored
at `armed_min_throttle`; when disarmed only the mode is set. -/
def vRCInputsToControlAction (arm_settings : Control_Arm_Settings)
    (control_limits : Control_Limits) (rc : RCInput_State)
    (controllers_armed : Bool) (s : Control_State) : Control_State :=
  if controllers_armed = true then
    let cr1 :=
      if flight_mode_selector = FLIGHTMODE_RATE then
        { s.control_reference with
            mode := FLIGHTMODE_RATE,
            rate_reference := { s.control_reference.rate_reference with
              x := control_limits.max_rate.pitch * DEG2RAD * rc.level ROLE_PITCH,
              y := control_limits.max_rate.roll * DEG2RAD * rc.level ROLE_ROLL } }
      else
        { s.control_reference with
            mode := FLIGHTMODE_ATTITUDE,
            attitude_reference := { s.control_reference.attitude_reference with
              x := control_limits.max_angle.pitch * DEG2RAD * rc.level ROLE_PITCH,
              y := control_limits.max_angle.roll * DEG2RAD * rc.level ROLE_ROLL } }
    let cr2 := { cr1 with rate_reference := { cr1.rate_reference with
      z := control_limits.max_rate.yaw * DEG2RAD * rc.level ROLE_YAW } }
    let throttle := rc.level ROLE_THROTTLE
    let cr3 := { cr2 with actuator_desired := { cr2.actuator_desired with
      throttle := if throttle < arm_settings.armed_min_throttle then
                    arm_settings.armed_min_throttle
                  else throttle } }
    { s with control_reference := cr3 }
  else
    { s with control_reference :=
        { s.control_reference with mode := FLIGHTMODE_DISARMED } }

/-- `vPositionControl` of control.c: an empty stub (reserved extension
point). -/
def vPositionControl (position_m : Option vector3f_t) (dt : ℚ)
    (s : Control_State) : Control_State :=
  s

/-- `vVelocityControl` of control.c: an empty stub (reserved extension
point). -/
def vVelocityControl (velocity_m : Option vector3f_t) (dt : ℚ)
    (s : Control_State) : Control_State :=
  s

/-- `vAttitudeControl` of control.c: Euler extraction from the measured
quaternion, the two error terms exactly as written in the source
(`err.x` adds the atan2 term to `attitude_reference.x`; `err.y`
subtracts the asin term from `attitude_reference.x`), PI updates of
attitude controllers 0 and 1, and the bounded writes into
`rate_reference.x/y`.  The `control_yaw` argument is unused in the
source (`err.z = 0` and no yaw controller runs). -/
def vAttitudeControl (fns : EulerFns) (control_limits : Control_Limits)
    (attitude_m : quaternion_t) (control_yaw : Bool) (dt : ℚ)
    (s : Control_State) : Control_State :=
  let errx := s.control_reference.attitude_reference.x +
    fns.atan2f
      (2 * (attitude_m.q0 * attitude_m.q1 + attitude_m.q2 * attitude_m.q3))
      (1 - 2 * (attitude_m.q1 * attitude_m.q1 + attitude_m.q2 * attitude_m.q2))
  let erry := s.control_reference.attitude_reference.x -
    fns.asinf
      (2 * (attitude_m.q0 * attitude_m.q2 - attitude_m.q1 * attitude_m.q3))
  let r0 := fPIUpdate (s.control_data.attitude_controller 0) erry dt
  let r1 := fPIUpdate (s.control_data.attitude_controller 1) errx dt
  { s with
      control_data := { s.control_data with attitude_controller :=
        (Function.update
          (Function.update s.control_data.attitude_controller 0 r0.2) 1 r1.2) },
      control_reference := { s.control_reference with rate_reference :=
        { s.control_reference.rate_reference with
            x := bound control_limits.max_rate_attitude.pitch
                   (-control_limits.max_rate_attitude.pitch) r0.1,
            y := bound control_limits.max_rate_attitude.roll
                   (-control_limits.max_rate_attitude.roll) r1.1 } } }

/-- `vRateControl` of control.c: the single-pole low-pass filters
`t1/t2/t3` with `alpha = 0.2`, the three rate errors exactly as written
in the source (`error.x` uses `t2`, `error.y` uses `t1`, `error.z` uses
`t3`), PI updates of rate controllers 0..2, and the bounded writes into
`actuator_desired.pitch/roll/yaw`. -/
def vRateControl (omega_m : vector3f_t) (dt : ℚ)
    (s : Control_State) : Control_State :=
  let alpha : ℚ := 0.2
  let t1 := alpha * omega_m.x + (1 - alpha) * s.rate_lpf.x
  let t2 := alpha * omega_m.y + (1 - alpha) * s.rate_lpf.y
  let t3 := alpha * omega_m.z + (1 - alpha) * s.rate_lpf.z
  let errx := s.control_reference.rate_reference.x - t2
  let erry := s.control_reference.rate_reference.y - t1
  let errz := s.control_reference.rate_reference.z - t3
  let r0 := fPIUpdate (s.control_data.rate_controller 0) errx dt
  let r1 := fPIUpdate (s.control_data.rate_controller 1) erry dt
  let r2 := fPIUpdate (s.control_data.rate_controller 2) errz dt
  { s with
      rate_lpf := { x := t1, y := t2, z := t3 },
      control_data := { s.control_data with rate_controller :=
        (Function.update (Function.update
          (Function.update s.control_data.rate_controller 0 r0.2) 1 r1.2)
          2 r2.2) },
      control_reference := { s.control_reference with actuator_desired :=
        { s.control_reference.actuator_desired with
            pitch := bound 1 (-1) r0.1,
            roll := bound 1 (-1) r1.1,
            yaw := bound 1 (-1) r2.1 } } }

/-- `vUpdateOutputs` of control.c: for each of the 8 channels, the clamped
weighted sum of the four actuator-demand components. -/
def vUpdateOutputs (output_mixer : Output_Mixer)
    (s : Control_State) : Control_State :=
  { s with control_reference := { s.control_reference with pwm_out := (fun i =>
      bound 1 (-1)
        (s.control_reference.actuator_desired.throttle * output_mixer.weights i 0 +
         s.control_reference.actuator_desired.pitch * output_mixer.weights i 1 +
         s.control_reference.actuator_desired.roll * output_mixer.weights i 2 +
         s.control_reference.actuator_desired.yaw * output_mixer.weights i 3)) } }

/-- `vSendPWMCommands` of control.c: forwards the 8 `pwm_out` values to
the RC output driver; the second component is the vector of channel
values handed to `RCOutputSetChannelWidthRelativePositive`. -/
def vSendPWMCommands (s : Control_State) : Control_State × (Fin 8 → ℚ) :=
  (s, s.control_reference.pwm_out)

/-- `vDisableAllOutputs` of control.c: zeroes all 8 `pwm_out` channels and
sends the zeroed values. -/
def vDisableAllOutputs (s : Control_State) : Control_State × (Fin 8 → ℚ) :=
  vSendPWMCommands
    { s with control_reference :=
        { s.control_reference with pwm_out := fun _ => 0 } }

/-- `vUpdateControlAction` of control.c: one control cycle.  Builds the
reference from RC input, then dispatches on the resulting mode with the
source's intentional switch fallthrough (each case runs every stage
below it); the disarmed/default case disables all outputs.  The position
and velocity stubs are called with `NULL` as in the source. -/
def vUpdateControlAction (fns : EulerFns)
    (arm_settings : Control_Arm_Settings) (control_limits : Control_Limits)
    (output_mixer : Output_Mixer) (rc : RCInput_State)
    (controllers_armed : Bool) (q_m : quaternion_t) (omega_m : vector3f_t)
    (dt : ℚ) (s : Control_State) : Control_State × (Fin 8 → ℚ) :=
  let s1 := vRCInputsToControlAction arm_settings control_limits rc
              controllers_armed s
  match s1.control_reference.mode with
  | FLIGHTMODE_POSITION =>
      vSendPWMCommands (vUpdateOutputs output_mixer (vRateControl omega_m dt
        (vAttitudeControl fns control_limits q_m false dt
          (vVelocityControl none dt (vPositionControl none dt s1)))))
  | FLIGHTMODE_VELOCITY =>
      vSendPWMCommands (vUpdateOutputs output_mixer (vRateControl omega_m dt
        (vAttitudeControl fns control_limits q_m false dt
          (vVelocityControl none dt s1))))
  | FLIGHTMODE_ATTITUDE =>
      vSendPWMCommands (vUpdateOutputs output_mixer (vRateControl omega_m dt
        (vAttitudeControl fns control_limits q_m false dt s1)))
  | FLIGHTMODE_RATE =>
      vSendPWMCommands (vUpdateOutputs output_mixer (vRateControl omega_m dt s1))
  | FLIGHTMODE_DIRECT_CONTROL =>
      vSendPWMCommands (vUpdateOutputs output_mixer s1)
  | FLIGTMODE_DIRECT_PWM =>
      vSendPWMCommands s1
  | FLIGHTMODE_DISARMED =>
      vDisableAllOutputs s1

/-- Modelled from the spec: `CONTROL_NUMBER_OF_CONTROLLERS` of control.h
(not among the available sources).  The accessor round-trip below is
independent of the concrete count; a fixed value keeps the definitions
executable. -/
def CONTROL_NUMBER_OF_CONTROLLERS : Nat := 12

/-- Modelled from the spec: `PI_Parameters` of control.h (not among the
available sources) — per spec section 4.5 the serialized gain record is
the flat list of {Kp, Ki, output_min} per controller. -/
structure PI_Parameters where
  Kp : ℚ
  Ki : ℚ
  output_min : ℚ
deriving DecidableEq, Repr

/-- `Control_Parameters`: the external gain block, one `PI_Parameters`
record per controller. -/
abbrev Control_Parameters := Fin CONTROL_NUMBER_OF_CONTROLLERS → PI_Parameters

/-- The flat view of `control_data` used by the accessor pair of
control.c, which casts the controller bank to a `PI_Data` array and
copies the first three floats of each record. -/
abbrev Control_Data_Flat := Fin CONTROL_NUMBER_OF_CONTROLLERS → PI_Data

/-- `GetControlParameters` of control.c: copies the first three floats
{Kp, Ki, output_min} of each controller record out to an external
`Control_Parameters` block. -/
def GetControlParameters (control_data : Control_Data_Flat) :
    Control_Parameters :=
  fun i =>
    { Kp := (control_data i).Kp,
      Ki := (control_data i).Ki,
      output_min := (control_data i).output_min }

/-- `SetControlParameters` of control.c: overwrites the first three floats
{Kp, Ki, output_min} of each controller record from an external
`Control_Parameters` block, leaving the remaining fields (bounds and
controller state) untouched. -/
def SetControlParameters (control_data : Control_Data_Flat)
    (param : Control_Parameters) : Control_Data_Flat :=
  fun i =>
    { control_data i with
        Kp := (param i).Kp,
        Ki := (param i).Ki,
        output_min := (param i).output_min }

/-- Status returned by the external parameter store (`FlashSave_Status`). -/
inductive FlashSave_Status
  | FLASHSAVE_OK
  | FLASHSAVE_NO_MATCH
deriving DecidableEq, Repr

export FlashSave_Status (FLASHSAVE_OK FLASHSAVE_NO_MATCH)

/-- Modelled from the spec: `FlashSave_Read` of the flash_save module (not
among the available sources).  It looks the keyed block up in the
non-volatile store: on success it fills the caller's buffer with the
stored block and reports `FLASHSAVE_OK`; on failure it reports an error
and leaves the caller's buffer unchanged. -/
def FlashSave_Read {α : Type} (stored : Option α) (buffer : α) :
    FlashSave_Status × α :=
  match stored with
  | some v => (FLASHSAVE_OK, v)
  | none => (FLASHSAVE_NO_MATCH, buffer)

/-- Contents of the external non-volatile store for the four keyed blocks
written and read by control.c ("CONA", "CONP", "CONL", "CONM"); `none`
models a block whose read fails. -/
structure FlashStore where
  cona : Option Control_Arm_Settings
  conp : Option Control_Parameters
  conl : Option Control_Limits
  conm : Option Output_Mixer

/-- The module-level variables touched by
`vReadControlParametersFromFlash`. -/
structure Flash_Param_State where
  arm_settings : Control_Arm_Settings
  flash_save_control_parameters : Control_Parameters
  control_data : Control_Data_Flat
  control_limits : Control_Limits
  output_mixer : Output_Mixer

/-- `vReadControlParametersFromFlash` of control.c: reads the four blocks
at startup.  "CONA", "CONL" and "CONM" are read straight into the live
structures (status unchecked); "CONP" is read into the staging buffer
and applied through `SetControlParameters` only when the read reports
`FLASHSAVE_OK`. -/
def vReadControlParametersFromFlash (store : FlashStore)
    (s : Flash_Param_State) : Flash_Param_State :=
  let ra := FlashSave_Read store.cona s.arm_settings
  let rp := FlashSave_Read store.conp s.flash_save_control_parameters
  let cd := if rp.1 = FLASHSAVE_OK then
              SetControlParameters s.control_data rp.2
            else s.control_data
  let rl := FlashSave_Read store.conl s.control_limits
  let rm := FlashSave_Read store.conm s.output_mixer
  { arm_settings := ra.2,
    flash_save_control_parameters := rp.2,
    control_data := cd,
    control_limits := rl.2,
    output_mixer := rm.2 }

/-!  Concrete fixtures used by the claim-specific evaluations below.  -/

/-- All-zero PI record: the zero-initialized default of `ControlInit`. -/
def zero_pi : PI_Data :=
  { Kp := 0, Ki := 0, output_min := 0, output_max := 0, integral := 0,
    last_output := 0 }

/-- Unit-gain pure-P controller record with wide output bounds, used in the
concrete evaluations (its PI update returns the error itself). -/
def unit_pi : PI_Data :=
  { Kp := 1, Ki := 0, output_min := -10, output_max := 10, integral := 0,
    last_output := 0 }

/-- Zero vector. -/
def zero_vector : vector3f_t := ⟨0, 0, 0⟩

/-- Identity quaternion (level attitude). -/
def identity_quaternion : quaternion_t := ⟨1, 0, 0, 0⟩

/-- Zero actuator demand. -/
def zero_actuator : Actuator_Desired := ⟨0, 0, 0, 0⟩

/-- RC snapshot with every channel at 0 and an active link. -/
def zero_rc : RCInput_State := ⟨fun _ => 0, true⟩

/-- All-zero control limits (the `ControlInit` default). -/
def zero_limits : Control_Limits := ⟨⟨0, 0⟩, ⟨0, 0, 0⟩, ⟨0, 0⟩⟩

/-- All-zero mixer (the `ControlInit` default). -/
def zero_mixer : Output_Mixer := ⟨fun _ _ => 0⟩

/-- Euler functions that agree with the C library at every point the
concrete checks below evaluate them: `atan2f 0 1 = 0` and `asinf 0 = 0`
for the identity quaternion. -/
def zero_euler_fns : EulerFns := ⟨fun _ _ => 0, fun _ => 0⟩

/-- The arm settings written by `ControlInit` before the flash read. -/
def default_arm_settings : Control_Arm_Settings :=
  { stick_threshold := 0, armed_min_throttle := 0,
    stick_direction := STICK_NONE, arm_stick_time := 5,
    arm_zero_throttle_timeout := 30 }

/-- Arming configuration of the C1 scenario: threshold 0.1, gesture
`STICK_YAW_MAX`, `arm_stick_time` 1 second. -/
def c1_arm_settings : Control_Arm_Settings :=
  { stick_threshold := 1/10, armed_min_throttle := 0,
    stick_direction := STICK_YAW_MAX, arm_stick_time := 1,
    arm_zero_throttle_timeout := 0 }

/-- RC snapshot of the C1 scenario: yaw held at +1, throttle at 0,
emergency-stop channel high, link active. -/
def c1_rc : RCInput_State :=
  { level := fun r => match r with
      | ROLE_YAW => 1
      | ROLE_AUX1 => 1
      | _ => 0,
    active_connection := true }

/-- Arming thread start state: disarmed, all tick counters at 0. -/
def arming_initial : Arming_State :=
  { controllers_armed := false, arm_time := 0, disarm_time := 0,
    timeout_time := 0 }

/-- A neutral control reference with everything zeroed. -/
def base_control_reference : Control_Reference :=
  { mode := FLIGHTMODE_DISARMED, attitude_reference := zero_vector,
    rate_reference := zero_vector, actuator_desired := zero_actuator,
    pwm_out := fun _ => 0 }

/-- Control state left over from an armed period with a nonzero pitch
demand, used to evaluate a disarmed cycle. -/
def c2_state : Control_State :=
  { control_reference := { base_control_reference with
      actuator_desired := { throttle := 0, pitch := 1/2, roll := 0, yaw := 0 } },
    control_data := ⟨fun _ => zero_pi, fun _ => zero_pi⟩,
    rate_lpf := zero_vector }

/-- Limits with attitude-loop output rate capped at 5. -/
def c3_limits : Control_Limits := ⟨⟨1, 1⟩, ⟨1, 1, 1⟩, ⟨5, 5⟩⟩

/-- Control state with pitch attitude reference 1 and roll reference 0,
unit-gain controllers. -/
def c3_state : Control_State :=
  { control_reference := { base_control_reference with
      attitude_reference := ⟨1, 0, 0⟩ },
    control_data := ⟨fun _ => unit_pi, fun _ => unit_pi⟩,
    rate_lpf := zero_vector }

/-- Control state with all references zero and unit-gain controllers. -/
def c4_state : Control_State :=
  { control_reference := base_control_reference,
    control_data := ⟨fun _ => unit_pi, fun _ => unit_pi⟩,
    rate_lpf := zero_vector }

/-- Rate measurement with only the x gyro axis nonzero. -/
def c4_omega : vector3f_t := ⟨1, 0, 0⟩

/-- Mixer whose row 0 is [1, 0, 0, 0] and all other rows are zero. -/
def c5_mixer : Output_Mixer := ⟨fun i j => if i = 0 ∧ j = 0 then 1 else 0⟩

/-- Control state with throttle demand 0.5 and all other demand zero. -/
def c5_state : Control_State :=
  { control_reference := { base_control_reference with
      actuator_desired := { throttle := 1/2, pitch := 0, roll := 0, yaw := 0 } },
    control_data := ⟨fun _ => zero_pi, fun _ => zero_pi⟩,
    rate_lpf := zero_vector }

/-!  Helper lemmas shared by several claims.  -/

/-- The clamp helper stays inside `[mn, mx]` whenever the interval is
nonempty. -/
lemma bound_mem (mx mn x : ℚ) (h : mn ≤ mx) :
    mn ≤ bound mx mn x ∧ bound mx mn x ≤ mx := by
  unfold bound
  split
  · exact ⟨h, le_refl mx⟩
  · split
    · exact ⟨le_refl mn, h⟩
    · constructor <;> linarith [not_lt.mp (by assumption : ¬ _)]

/-- While the gates pass and the sticks classify as the arm region, the
arming tick simply counts: after `n ≤ ARM_RATE * (arm_stick_time + 1)`
ticks from the start state the system is still disarmed with
`arm_time = n` (no `uint16_t` wrap below 65536). -/
lemma arming_iterate_arm_region (R : Nat) (as : Control_Arm_Settings)
    (rc : RCInput_State)
    (hconn : rc.active_connection = true)
    (hdir : as.stick_direction ≠ STICK_NONE)
    (haux : ¬ rc.level ROLE_AUX1 < 1/2)
    (hreg : SticksInRegion as rc = STICK_ARM_REGION)
    (hwrap : R * (as.arm_stick_time + 1) < 65536) :
    ∀ n, n ≤ R * (as.arm_stick_time + 1) →
      (ThreadControlArmingTick R as rc)^[n] arming_initial =
        { controllers_armed := false, arm_time := n, disarm_time := 0,
          timeout_time := 0 } := by
  intro n
  induction n with
  | zero => intro _; rfl
  | succ k ih =>
    intro hk
    have hk1 : k ≤ R * (as.arm_stick_time + 1) := Nat.le_of_succ_le hk
    rw [Function.iterate_succ_apply', ih hk1]
    have hlt : k < R * (as.arm_stick_time + 1) := hk
    have hdiv : ¬ k / R > as.arm_stick_time := by
      intro hgt
      rcases Nat.eq_zero_or_pos R with hR0 | hRpos
      · simp [hR0, Nat.div_zero] at hgt
      · have : (as.arm_stick_time + 1) * R ≤ k :=
          (Nat.le_div_iff_mul_le hRpos).mp hgt
        have : R * (as.arm_stick_time + 1) ≤ k := by
          rw [Nat.mul_comm]; exact this
        omega
    unfold ThreadControlArmingTick
    rw [if_pos ⟨hconn, hdir⟩, if_neg haux]
    simp only [hreg]
    rw [if_neg hdiv]
    have hmod : (k + 1) % 65536 = k + 1 := Nat.mod_eq_of_lt (by omega)
    simp [hmod]

/-- C1 (corrected): arming hysteresis of the arming tick.  With an active
RC link, a configured gesture, emergency-stop at or above 0.5 and the
sticks held in the arm region, the system stays disarmed for every
prefix of up to `ARM_RATE * (arm_stick_time + 1)` ticks and becomes
armed on tick `ARM_RATE * (arm_stick_time + 1) + 1` (the source arms
once `arm_time / ARM_RATE > arm_stick_time`, not after
`arm_stick_time * ARM_RATE` ticks); and any single gate-passing tick
whose region is not the arm region and which does not itself complete a
disarm resets `arm_time` to 0. -/
theorem C1_arming_hysteresis (R : Nat) (as : Control_Arm_Settings)
    (rc : RCInput_State)
    (hconn : rc.active_connection = true)
    (hdir : as.stick_direction ≠ STICK_NONE)
    (haux : ¬ rc.level ROLE_AUX1 < 1/2)
    (hreg : SticksInRegion as rc = STICK_ARM_REGION)
    (hwrap : R * (as.arm_stick_time + 1) < 65536)
    (hR : 0 < R) :
    (∀ n, n ≤ R * (as.arm_stick_time + 1) →
      ((ThreadControlArmingTick R as rc)^[n]
        arming_initial).controllers_armed = false) ∧
    ((ThreadControlArmingTick R as rc)^[R * (as.arm_stick_time + 1) + 1]
        arming_initial).controllers_armed = true ∧
    (∀ rc2 : RCInput_State, ∀ s : Arming_State,
      rc2.active_connection = true →
      ¬ rc2.level ROLE_AUX1 < 1/2 →
      SticksInRegion as rc2 ≠ STICK_ARM_REGION →
      ¬ s.disarm_time / R > as.arm_stick_time →
      (ThreadControlArmingTick R as rc2 s).arm_time = 0) := by
  refine ⟨?_, ?_, ?_⟩
  · intro n hn
    rw [arming_iterate_arm_region R as rc hconn hdir haux hreg hwrap n hn]
  · rw [Function.iterate_succ_apply',
        arming_iterate_arm_region R as rc hconn hdir haux hreg hwrap _
          (le_refl _)]
    unfold ThreadControlArmingTick
    rw [if_pos ⟨hconn, hdir⟩, if_neg haux]
    simp only [hreg]
    have hdiv : R * (as.arm_stick_time + 1) / R > as.arm_stick_time := by
      rw [Nat.mul_div_cancel_left _ hR]
      omega
    rw [if_pos hdiv]
  · intro rc2 s hc2 ha2 hnreg hnd
    unfold ThreadControlArmingTick
    rw [if_pos ⟨hc2, hdir⟩, if_neg ha2]
    cases hsr : SticksInRegion as rc2 with
    | STICK_ARM_REGION => exact absurd hsr hnreg
    | STICK_DISARM_REGION =>
      simp only [hsr]
      rw [if_neg hnd]
    | STICK_NO_REGION =>
      simp only [hsr]
      split
      · split
        · split <;> rfl
        · rfl
      · rfl

/-- C1 counterexample: with the scenario configuration (threshold 0.1,
gesture yaw-max, `arm_stick_time` 1 s, rate 50 Hz, yaw held at +1 and
throttle at 0), 50 consecutive ticks leave the system disarmed, contrary
to the claimed Disarmed-to-Armed transition at 50 ticks. -/
theorem C1_counterexample :
    ((ThreadControlArmingTick 50 c1_arm_settings c1_rc)^[50]
      arming_initial).controllers_armed = false := by
  rw [arming_iterate_arm_region 50 c1_arm_settings c1_rc rfl (by decide)
    (by norm_num [c1_rc])
    (by norm_num [SticksInRegion, c1_arm_settings, c1_rc]) (by decide) 50
    (by decide)]

/-- C1 witness: the amended hysteresis applied to the scenario, showing the
system armed after `50 * (1 + 1) + 1 = 101` ticks. -/
theorem C1_witness :
    ((ThreadControlArmingTick 50 c1_arm_settings
        c1_rc)^[50 * (c1_arm_settings.arm_stick_time + 1) + 1]
      arming_initial).controllers_armed = true :=
  (C1_arming_hysteresis 50 c1_arm_settings c1_rc rfl (by decide)
    (by norm_num [c1_rc])
    (by norm_num [SticksInRegion, c1_arm_settings, c1_rc]) (by decide)
    (by decide)).2.1

/-- C2 (corrected): in every control cycle executed while disarmed, all
eight `pwm_out` channels are forced to 0 and the zeroed values are the
ones sent to the output driver, and no pipeline stage runs (the PI
controller bank and the rate filter state are untouched); however the
`actuator_desired` components are NOT zeroed — they retain their
previous values. -/
theorem C2_disarmed_cycle (fns : EulerFns) (arm_settings : Control_Arm_Settings)
    (control_limits : Control_Limits) (output_mixer : Output_Mixer)
    (rc : RCInput_State) (q_m : quaternion_t) (omega_m : vector3f_t)
    (dt : ℚ) (s : Control_State) :
    ((vUpdateControlAction fns arm_settings control_limits output_mixer rc
        false q_m omega_m dt s).1.control_reference.pwm_out = fun _ => 0) ∧
    ((vUpdateControlAction fns arm_settings control_limits output_mixer rc
        false q_m omega_m dt s).2 = fun _ => 0) ∧
    ((vUpdateControlAction fns arm_settings control_limits output_mixer rc
        false q_m omega_m dt s).1.control_data = s.control_data) ∧
    ((vUpdateControlAction fns arm_settings control_limits output_mixer rc
        false q_m omega_m dt s).1.rate_lpf = s.rate_lpf) ∧
    ((vUpdateControlAction fns arm_settings control_limits output_mixer rc
        false q_m omega_m dt s).1.control_reference.actuator_desired =
      s.control_reference.actuator_desired) :=
  ⟨rfl, rfl, rfl, rfl, rfl⟩

/-- C2 counterexample: a disarmed cycle on a state whose pitch demand is
1/2 leaves `actuator_desired.pitch` at 1/2, contrary to the claim that
every `actuator_desired` component is forced to 0. -/
theorem C2_counterexample :
    (vUpdateControlAction zero_euler_fns default_arm_settings zero_limits
        zero_mixer zero_rc false identity_quaternion zero_vector 1
        c2_state).1.control_reference.actuator_desired.pitch ≠ 0 := by
  have h : (vUpdateControlAction zero_euler_fns default_arm_settings
      zero_limits zero_mixer zero_rc false identity_quaternion zero_vector 1
      c2_state).1.control_reference.actuator_desired.pitch = 1/2 := rfl
  rw [h]
  norm_num

/-- C9 (confirmed): a control cycle executed while disarmed modifies only
`control_reference.mode` (set to `FLIGHTMODE_DISARMED`) and the eight
`pwm_out` channels (zeroed); the PI controller bank, the rate
low-pass-filter state, the attitude reference, the rate reference and
all `actuator_desired` components are left unchanged and persist. -/
theorem C9_disarmed_frame (fns : EulerFns) (arm_settings : Control_Arm_Settings)
    (control_limits : Control_Limits) (output_mixer : Output_Mixer)
    (rc : RCInput_State) (q_m : quaternion_t) (omega_m : vector3f_t)
    (dt : ℚ) (s : Control_State) :
    ((vUpdateControlAction fns arm_settings control_limits output_mixer rc
        false q_m omega_m dt s).1.control_data = s.control_data) ∧
    ((vUpdateControlAction fns arm_settings control_limits output_mixer rc
        false q_m omega_m dt s).1.rate_lpf = s.rate_lpf) ∧
    ((vUpdateControlAction fns arm_settings control_limits output_mixer rc
        false q_m omega_m dt s).1.control_reference.attitude_reference =
      s.control_reference.attitude_reference) ∧
    ((vUpdateControlAction fns arm_settings control_limits output_mixer rc
        false q_m omega_m dt s).1.control_reference.rate_reference =
      s.control_reference.rate_reference) ∧
    ((vUpdateControlAction fns arm_settings control_limits output_mixer rc
        false q_m omega_m dt s).1.control_reference.actuator_desired =
      s.control_reference.actuator_desired) ∧
    ((vUpdateControlAction fns arm_settings control_limits output_mixer rc
        false q_m omega_m dt s).1.control_reference.mode =
      FLIGHTMODE_DISARMED) ∧
    ((vUpdateControlAction fns arm_settings control_limits output_mixer rc
        false q_m omega_m dt s).1.control_reference.pwm_out = fun _ => 0) :=
  ⟨rfl, rfl, rfl, rfl, rfl, rfl, rfl⟩

/-- C5 (confirmed): the output stage writes
`pwm_out[i] = bound(-1, 1, throttle*w[i][0] + pitch*w[i][1] +
roll*w[i][2] + yaw*w[i][3])` for each of the 8 channels — the clamped
linear combination of the four demand inputs — every channel lies in
[-1, 1] afterwards, and with row 0 equal to [1,0,0,0] and throttle 0.5
alone, channel 0 equals 0.5. -/
theorem C5_output_mixer (output_mixer : Output_Mixer) (s : Control_State) :
    (∀ i : Fin 8,
      (vUpdateOutputs output_mixer s).control_reference.pwm_out i =
        bound 1 (-1)
          (s.control_reference.actuator_desired.throttle * output_mixer.weights i 0 +
           s.control_reference.actuator_desired.pitch * output_mixer.weights i 1 +
           s.control_reference.actuator_desired.roll * output_mixer.weights i 2 +
           s.control_reference.actuator_desired.yaw * output_mixer.weights i 3)) ∧
    (∀ i : Fin 8,
      -1 ≤ (vUpdateOutputs output_mixer s).control_reference.pwm_out i ∧
      (vUpdateOutputs output_mixer s).control_reference.pwm_out i ≤ 1) ∧
    (vUpdateOutputs c5_mixer c5_state).control_reference.pwm_out 0 = 1/2 := by
  refine ⟨fun i => rfl, fun i => bound_mem 1 (-1) _ (by norm_num), ?_⟩
  show bound 1 (-1)
    ((1:ℚ)/2 * (if (0 : Fin 8) = 0 ∧ (0 : Fin 4) = 0 then 1 else 0) +
     0 * (if (0 : Fin 8) = 0 ∧ (1 : Fin 4) = 0 then 1 else 0) +
     0 * (if (0 : Fin 8) = 0 ∧ (2 : Fin 4) = 0 then 1 else 0) +
     0 * (if (0 : Fin 8) = 0 ∧ (3 : Fin 4) = 0 then 1 else 0)) = 1/2
  norm_num [bound]

/-- C6 (confirmed): `vControlForceDisarm` clears the armed flag exactly for
the sentinel key 0xdeadbeef; for every other key it is a no-op leaving
the whole state unchanged, and in all cases the timers are untouched. -/
theorem C6_force_disarm (key : Nat) (s : Arming_State) :
    ((vControlForceDisarm 0xdeadbeef s).controllers_armed = false) ∧
    (key ≠ 0xdeadbeef → vControlForceDisarm key s = s) ∧
    ((vControlForceDisarm key s).arm_time = s.arm_time) ∧
    ((vControlForceDisarm key s).disarm_time = s.disarm_time) ∧
    ((vControlForceDisarm key s).timeout_time = s.timeout_time) := by
  refine ⟨rfl, fun h => if_neg h, ?_, ?_, ?_⟩ <;>
    (unfold vControlForceDisarm; split <;> rfl)

/-- C6 witness: a non-sentinel key leaves the arming state unchanged. -/
theorem C6_witness :
    vControlForceDisarm 5 arming_initial = arming_initial :=
  (C6_force_disarm 5 arming_initial).2.1 (by decide)

/-- C7 (confirmed): for each of the four startup parameter blocks, the
result of the non-volatile read is applied to the live configuration
exactly when the read succeeds; on a failed read the previous (zero
initialized) value of that block is retained, and the function returns
normally. -/
theorem C7_parameter_load (store : FlashStore) (s : Flash_Param_State) :
    ((vReadControlParametersFromFlash store s).arm_settings =
      match store.cona with
      | some v => v
      | none => s.arm_settings) ∧
    ((vReadControlParametersFromFlash store s).control_data =
      match store.conp with
      | some p => SetControlParameters s.control_data p
      | none => s.control_data) ∧
    ((vReadControlParametersFromFlash store s).control_limits =
      match store.conl with
      | some v => v
      | none => s.control_limits) ∧
    ((vReadControlParametersFromFlash store s).output_mixer =
      match store.conm with
      | some v => v
      | none => s.output_mixer) := by
  refine ⟨?_, ?_, ?_, ?_⟩
  · cases h : store.cona <;>
      simp [vReadControlParametersFromFlash, FlashSave_Read, h]
  · cases h : store.conp <;>
      simp [vReadControlParametersFromFlash, FlashSave_Read, h]
  · cases h : store.conl <;>
      simp [vReadControlParametersFromFlash, FlashSave_Read, h]
  · cases h : store.conm <;>
      simp [vReadControlParametersFromFlash, FlashSave_Read, h]

/-- C8 (confirmed): the flight-mode selector of
`vRCInputsToControlAction` is the compile-time constant
`FLIGHTMODE_ATTITUDE`; every armed cycle therefore sets the reference
mode to `FLIGHTMODE_ATTITUDE` (and a disarmed one to
`FLIGHTMODE_DISARMED`), so the armed dispatch of `vUpdateControlAction`
always enters the cascade at the attitude stage — the rate, velocity,
position, direct-control and direct-PWM entry points are never taken. -/
theorem C8_mode_selector_constant (fns : EulerFns)
    (arm_settings : Control_Arm_Settings) (control_limits : Control_Limits)
    (output_mixer : Output_Mixer) (rc : RCInput_State)
    (controllers_armed : Bool) (q_m : quaternion_t) (omega_m : vector3f_t)
    (dt : ℚ) (s : Control_State) :
    (flight_mode_selector = FLIGHTMODE_ATTITUDE) ∧
    ((vRCInputsToControlAction arm_settings control_limits rc
        controllers_armed s).control_reference.mode =
      if controllers_armed = true then FLIGHTMODE_ATTITUDE
      else FLIGHTMODE_DISARMED) ∧
    (vUpdateControlAction fns arm_settings control_limits output_mixer rc
        true q_m omega_m dt s =
      vSendPWMCommands (vUpdateOutputs output_mixer (vRateControl omega_m dt
        (vAttitudeControl fns control_limits q_m false dt
          (vRCInputsToControlAction arm_settings control_limits rc
            true s))))) := by
  refine ⟨rfl, ?_, rfl⟩
  cases controllers_armed <;> rfl

/-- C10 (confirmed): `SetControlParameters` followed by
`GetControlParameters` is the identity on the copied {Kp, Ki,
output_min} triple of every controller record. -/
theorem C10_get_set_roundtrip (control_data : Control_Data_Flat)
    (param : Control_Parameters) :
    GetControlParameters (SetControlParameters control_data param) = param := by
  funext i
  rfl

/-- C3 (corrected): the attitude stage extracts the measured angles by the
standard Euler formulas (atan2 over quaternion products, asin), and the
outputs written into `rate_reference.x` and `rate_reference.y` are
bounded to the pitch and roll `max_rate_attitude` limits respectively,
with yaw untouched; however the error handed to the pitch controller is
`attitude_reference.x` minus the asin term, while the error handed to
the roll controller is `attitude_reference.x` (the pitch reference, not
the roll one) PLUS the atan2 term. -/
theorem C3_attitude_stage (fns : EulerFns) (control_limits : Control_Limits)
    (q_m : quaternion_t) (dt : ℚ) (s : Control_State)
    (hp : 0 ≤ control_limits.max_rate_attitude.pitch)
    (hr : 0 ≤ control_limits.max_rate_attitude.roll) :
    ((vAttitudeControl fns control_limits q_m false dt
        s).control_reference.rate_reference.x =
      bound control_limits.max_rate_attitude.pitch
        (-control_limits.max_rate_attitude.pitch)
        (fPIUpdate (s.control_data.attitude_controller 0)
          (s.control_reference.attitude_reference.x -
            fns.asinf (2 * (q_m.q0 * q_m.q2 - q_m.q1 * q_m.q3))) dt).1) ∧
    ((vAttitudeControl fns control_limits q_m false dt
        s).control_reference.rate_reference.y =
      bound control_limits.max_rate_attitude.roll
        (-control_limits.max_rate_attitude.roll)
        (fPIUpdate (s.control_data.attitude_controller 1)
          (s.control_reference.attitude_reference.x +
            fns.atan2f (2 * (q_m.q0 * q_m.q1 + q_m.q2 * q_m.q3))
              (1 - 2 * (q_m.q1 * q_m.q1 + q_m.q2 * q_m.q2))) dt).1) ∧
    ((vAttitudeControl fns control_limits q_m false dt
        s).control_reference.rate_reference.z =
      s.control_reference.rate_reference.z) ∧
    (-control_limits.max_rate_attitude.pitch ≤
        (vAttitudeControl fns control_limits q_m false dt
          s).control_reference.rate_reference.x ∧
      (vAttitudeControl fns control_limits q_m false dt
          s).control_reference.rate_reference.x ≤
        control_limits.max_rate_attitude.pitch) ∧
    (-control_limits.max_rate_attitude.roll ≤
        (vAttitudeControl fns control_limits q_m false dt
          s).control_reference.rate_reference.y ∧
      (vAttitudeControl fns control_limits q_m false dt
          s).control_reference.rate_reference.y ≤
        control_limits.max_rate_attitude.roll) :=
  ⟨rfl, rfl, rfl,
    bound_mem _ _ _ (by linarith),
    bound_mem _ _ _ (by linarith)⟩

/-- C3 counterexample: at the identity quaternion (measured pitch and roll
both 0, using Euler functions agreeing with the C library there) with
pitch reference 1, roll reference 0 and a unit-gain pure-P controller,
the value written to `rate_reference.y` is 1, not the 0 prescribed by
the claimed same-axis formula `reference.y - measured_roll`. -/
theorem C3_counterexample :
    (vAttitudeControl zero_euler_fns c3_limits identity_quaternion false 1
        c3_state).control_reference.rate_reference.y ≠
      bound c3_limits.max_rate_attitude.roll
        (-c3_limits.max_rate_attitude.roll)
        (fPIUpdate (c3_state.control_data.attitude_controller 1)
          (c3_state.control_reference.attitude_reference.y -
            zero_euler_fns.atan2f
              (2 * (identity_quaternion.q0 * identity_quaternion.q1 +
                identity_quaternion.q2 * identity_quaternion.q3))
              (1 - 2 * (identity_quaternion.q1 * identity_quaternion.q1 +
                identity_quaternion.q2 * identity_quaternion.q2))) 1).1 := by
  norm_num [vAttitudeControl, fPIUpdate, bound, zero_euler_fns, c3_limits,
    identity_quaternion, c3_state, unit_pi, base_control_reference,
    zero_vector, zero_actuator]

/-- C3 witness: the amended attitude-stage theorem applied at the concrete
scenario, yielding the untouched-yaw equation. -/
theorem C3_witness :
    (vAttitudeControl zero_euler_fns c3_limits identity_quaternion false 1
        c3_state).control_reference.rate_reference.z =
      c3_state.control_reference.rate_reference.z :=
  (C3_attitude_stage zero_euler_fns c3_limits identity_quaternion 1 c3_state
    (by norm_num [c3_limits]) (by norm_num [c3_limits])).2.2.1

/-- C4 (corrected): each raw angular-rate component is low-pass-filtered
with the single-pole IIR `filtered = 0.2*new + (1 - 0.2)*filtered`, and
the three PI outputs written into `actuator_desired.pitch/roll/yaw` are
bounded to [-1, 1]; however the pitch-axis error subtracts the filtered
y component of the measurement and the roll-axis error subtracts the
filtered x component (the x and y filtered measurements are swapped
relative to the claimed same-component pairing); only the yaw axis pairs
`rate_reference.z` with the filtered z component. -/
theorem C4_rate_stage (omega_m : vector3f_t) (dt : ℚ) (s : Control_State) :
    ((vRateControl omega_m dt s).rate_lpf =
      { x := 0.2 * omega_m.x + (1 - 0.2) * s.rate_lpf.x,
        y := 0.2 * omega_m.y + (1 - 0.2) * s.rate_lpf.y,
        z := 0.2 * omega_m.z + (1 - 0.2) * s.rate_lpf.z }) ∧
    ((vRateControl omega_m dt s).control_reference.actuator_desired.pitch =
      bound 1 (-1)
        (fPIUpdate (s.control_data.rate_controller 0)
          (s.control_reference.rate_reference.x -
            (0.2 * omega_m.y + (1 - 0.2) * s.rate_lpf.y)) dt).1) ∧
    ((vRateControl omega_m dt s).control_reference.actuator_desired.roll =
      bound 1 (-1)
        (fPIUpdate (s.control_data.rate_controller 1)
          (s.control_reference.rate_reference.y -
            (0.2 * omega_m.x + (1 - 0.2) * s.rate_lpf.x)) dt).1) ∧
    ((vRateControl omega_m dt s).control_reference.actuator_desired.yaw =
      bound 1 (-1)
        (fPIUpdate (s.control_data.rate_controller 2)
          (s.control_reference.rate_reference.z -
            (0.2 * omega_m.z + (1 - 0.2) * s.rate_lpf.z)) dt).1) ∧
    (-1 ≤ (vRateControl omega_m dt s).control_reference.actuator_desired.pitch ∧
      (vRateControl omega_m dt s).control_reference.actuator_desired.pitch ≤ 1) ∧
    (-1 ≤ (vRateControl omega_m dt s).control_reference.actuator_desired.roll ∧
      (vRateControl omega_m dt s).control_reference.actuator_desired.roll ≤ 1) ∧
    (-1 ≤ (vRateControl omega_m dt s).control_reference.actuator_desired.yaw ∧
      (vRateControl omega_m dt s).control_reference.actuator_desired.yaw ≤ 1) :=
  ⟨rfl, rfl, rfl, rfl,
    bound_mem 1 (-1) _ (by norm_num),
    bound_mem 1 (-1) _ (by norm_num),
    bound_mem 1 (-1) _ (by norm_num)⟩

/-- C4 counterexample: with all rate references 0, zero filter state, a
unit-gain pure-P controller and a measurement of 1 on the x gyro axis
only, the pitch demand produced is 0, not the -0.2 prescribed by the
claimed same-component formula
`rate_reference.x - filtered(omega_m.x)`. -/
theorem C4_counterexample :
    (vRateControl c4_omega 1
        c4_state).control_reference.actuator_desired.pitch ≠
      bound 1 (-1)
        (fPIUpdate (c4_state.control_data.rate_controller 0)
          (c4_state.control_reference.rate_reference.x -
            (0.2 * c4_omega.x + (1 - 0.2) * c4_state.rate_lpf.x)) 1).1 := by
  norm_num [vRateControl, fPIUpdate, bound, c4_omega, c4_state, unit_pi,
    base_control_reference, zero_vector, zero_actuator]
